import Mathlib

/-!
Verification of the digest-headers library: a shallow embedding of the
`Digest` value model (src/lib.rs), its error taxonomy (src/error.rs), and
the Rocket request-guard example (examples/rocket.rs), together with proofs
of the specified properties.

Strings are modelled as `List Char`; byte sequences as `List Nat`.  The
cryptographic hash primitive (the `ring` crate) is an external collaborator
and is modelled as an explicit function parameter `hash`; the base64
encoding step (the `base64` crate, standard alphabet with padding) is
modelled concretely.
-/

namespace DigestHeaders

instance {ε α : Type} [DecidableEq ε] [DecidableEq α] : DecidableEq (Except ε α)
  | .error e, .error f =>
      if h : e = f then .isTrue (by rw [h])
      else .isFalse (fun hc => h (by cases hc; rfl))
  | .error _, .ok _ => .isFalse (fun hc => by cases hc)
  | .ok _, .error _ => .isFalse (fun hc => by cases hc)
  | .ok a, .ok b =>
      if h : a = b then .isTrue (by rw [h])
      else .isFalse (fun hc => h (by cases hc; rfl))

/-- The error type of src/error.rs. -/
inductive Error
  | parseShaSize
  | parseDigest
  | invalidDigest
deriving DecidableEq, Repr

/-- `ShaSize` from src/lib.rs: the three supported SHA variants. -/
inductive ShaSize
  | twoFiftySix
  | threeEightyFour
  | fiveTwelve
deriving DecidableEq, Repr

/-- `impl fmt::Display for ShaSize` (src/lib.rs lines 111-121): the canonical
textual name of each variant. -/
def shaSizeDisplay : ShaSize → List Char
  | .twoFiftySix => ['S', 'H', 'A', '-', '2', '5', '6']
  | .threeEightyFour => ['S', 'H', 'A', '-', '3', '8', '4']
  | .fiveTwelve => ['S', 'H', 'A', '-', '5', '1', '2']

/-- `impl FromStr for ShaSize` (src/lib.rs lines 123-136): exact match against
the three canonical names, otherwise `Error::ParseShaSize`. -/
def shaSizeFromStr (s : List Char) : Except Error ShaSize :=
  if s = ['S', 'H', 'A', '-', '2', '5', '6'] then .ok .twoFiftySix
  else if s = ['S', 'H', 'A', '-', '3', '8', '4'] then .ok .threeEightyFour
  else if s = ['S', 'H', 'A', '-', '5', '1', '2'] then .ok .fiveTwelve
  else .error .parseShaSize

/-- The `Digest` struct of src/lib.rs: a base64-encoded digest string and a
`ShaSize`.  Derived equality compares both fields, as Rust's
`#[derive(PartialEq)]` does. -/
structure Digest where
  digest : List Char
  size : ShaSize
deriving DecidableEq, Repr

/-- `Digest::from_base64_and_size` (src/lib.rs lines 203-205). -/
def Digest.fromBase64AndSize (digest : List Char) (size : ShaSize) : Digest :=
  ⟨digest, size⟩

/-- One character of the standard base64 alphabet (base64 crate). -/
def base64Char (n : Nat) : Char :=
  if n < 26 then Char.ofNat (65 + n)
  else if n < 52 then Char.ofNat (97 + (n - 26))
  else if n < 62 then Char.ofNat (48 + (n - 52))
  else if n = 62 then '+'
  else '/'

/-- `base64::encode` with the standard alphabet and `=` padding, over bytes. -/
def base64Encode : List Nat → List Char
  | [] => []
  | [b1] => [base64Char (b1 / 4), base64Char (b1 % 4 * 16), '=', '=']
  | [b1, b2] =>
      [base64Char (b1 / 4), base64Char (b1 % 4 * 16 + b2 / 16),
       base64Char (b2 % 16 * 4), '=']
  | b1 :: b2 :: b3 :: rest =>
      base64Char (b1 / 4) :: base64Char (b1 % 4 * 16 + b2 / 16) ::
      base64Char (b2 % 16 * 4 + b3 / 64) :: base64Char (b3 % 64) ::
      base64Encode rest

/-- `RequestBody::digest` followed by `Digest::new` (src/lib.rs lines 149-160
and 186-188): hash the body with the ring primitive selected by `size`, base64
encode the raw hash output, and wrap it with the size.  The ring hash
primitive is external and passed in as `hash`. -/
def Digest.new (hash : ShaSize → List Nat → List Nat) (body : List Nat)
    (size : ShaSize) : Digest :=
  Digest.fromBase64AndSize (base64Encode (hash size body)) size

/-- `Digest::as_string` (src/lib.rs lines 224-226): renders
`"{size}={digest}"`. -/
def Digest.asString (d : Digest) : List Char :=
  shaSizeDisplay d.size ++ '=' :: d.digest

/-- `Digest::verify` (src/lib.rs lines 239-247): recompute the digest of the
body at the stored size and compare by full value equality. -/
def Digest.verify (hash : ShaSize → List Nat → List Nat) (d : Digest)
    (body : List Nat) : Except Error Unit :=
  if d = Digest.new hash body d.size then .ok () else .error .invalidDigest

/-- `str::find` for a single character: index of the first occurrence. -/
def findChar (c : Char) : List Char → Option Nat
  | [] => none
  | x :: xs => if x = c then some 0 else (findChar c xs).map (· + 1)

/-- `impl FromStr for Digest` (src/lib.rs lines 250-263): find the first `=`;
everything before it parses as a `ShaSize`, everything after it is stored
verbatim; no `=` at all is `Error::ParseDigest`. -/
def digestFromStr (s : List Char) : Except Error Digest :=
  match findChar '=' s with
  | none => .error .parseDigest
  | some i =>
      match shaSizeFromStr (s.take i) with
      | .ok size => .ok ⟨(s.drop i).drop 1, size⟩
      | .error e => .error e

/-! The Rocket request guard, examples/rocket.rs.  Rocket's `Status` values
used by `from_data` are `BadRequest` and `InternalServerError`; its outcome is
either success with the verified body or a failure with a status.  The body
stream (`Data`) is modelled as the list of bytes it would yield, and the
number of bytes read from it is returned alongside the outcome so that the
guard's read behaviour is observable. -/

/-- The two Rocket statuses produced by `DigestVerifiedBody::from_data`. -/
inductive Status
  | badRequest
  | internalServerError
deriving DecidableEq, Repr

/-- Outcome of the Rocket data guard: either the verified body bytes or a
failure status. -/
inductive GuardOutcome
  | success (body : List Nat)
  | failure (status : Status)
deriving DecidableEq, Repr

/-- `impl FromRequest for DigestHeader` (examples/rocket.rs lines 44-58):
succeeds with the parsed digest if the `Digest` header is present and parses;
otherwise fails (with `Status::BadRequest`, modelled as `none`). -/
def digestHeaderGuard (hdr : Option (List Char)) : Option Digest :=
  match hdr with
  | none => none
  | some s =>
      match digestFromStr s with
      | .ok d => some d
      | .error _ => none

/-- `str::parse::<usize>`: an optional leading `+`, then one or more ASCII
digits, rejecting values that overflow a 64-bit `usize`. -/
def parseUsize (s : List Char) : Option Nat :=
  let digits := match s with
    | '+' :: rest => rest
    | _ => s
  if digits = [] then none
  else if digits.all (fun c => c.isDigit) then
    let n := digits.foldl (fun acc c => acc * 10 + (c.toNat - 48)) 0
    if n < 2 ^ 64 then some n else none
  else none

/-- `impl FromRequest for ContentLengthHeader` (examples/rocket.rs lines
73-87): succeeds with the parsed length if the `Content-Length` header is
present and parses as `usize`; otherwise fails. -/
def contentLengthGuard (hdr : Option (List Char)) : Option Nat :=
  match hdr with
  | none => none
  | some s => parseUsize s

/-- `impl FromData for DigestVerifiedBody` (examples/rocket.rs lines
116-152): run the digest-header guard, then the content-length guard, reject
lengths above `1024 * 1024 * 2` before touching the stream, read exactly
`content_length` bytes (a short stream is `read_exact` failing with
`InternalServerError`), recompute the digest and compare.  The second
component of the result is the number of bytes read from the stream. -/
def fromData (hash : ShaSize → List Nat → List Nat)
    (digestHdr lenHdr : Option (List Char)) (stream : List Nat) :
    GuardOutcome × Nat :=
  match digestHeaderGuard digestHdr with
  | none => (.failure .badRequest, 0)
  | some digest =>
      match contentLengthGuard lenHdr with
      | none => (.failure .badRequest, 0)
      | some contentLength =>
          if contentLength > 1024 * 1024 * 2 then
            (.failure .badRequest, 0)
          else if stream.length < contentLength then
            (.failure .internalServerError, stream.length)
          else
            let body := stream.take contentLength
            let bodyDigest := Digest.new hash body digest.size
            if digest ≠ bodyDigest then (.failure .badRequest, contentLength)
            else (.success body, contentLength)

/-! Helper lemmas about the parsing pipeline. -/

theorem findChar_append_cons (c : Char) (l r : List Char)
    (h : ∀ x ∈ l, x ≠ c) : findChar c (l ++ c :: r) = some l.length := by
  induction l with
  | nil => simp [findChar]
  | cons a as ih =>
      have ha : a ≠ c := h a (by simp)
      simp [findChar, ha, ih (fun x hx => h x (by simp [hx]))]

theorem findChar_eq_none (c : Char) (s : List Char)
    (h : ∀ x ∈ s, x ≠ c) : findChar c s = none := by
  induction s with
  | nil => rfl
  | cons a as ih =>
      have ha : a ≠ c := h a (by simp)
      simp [findChar, ha, ih (fun x hx => h x (by simp [hx]))]

theorem digestFromStr_split (l r : List Char) (h : '=' ∉ l) :
    digestFromStr (l ++ '=' :: r) =
      match shaSizeFromStr l with
      | .ok size => .ok ⟨r, size⟩
      | .error e => .error e := by
  have hfind := findChar_append_cons '=' l r (fun x hx hc => h (hc ▸ hx))
  unfold digestFromStr
  rw [hfind]
  simp only [List.take_left, List.drop_left, List.drop_one, List.tail_cons]

theorem digestFromStr_no_delim (s : List Char) (h : '=' ∉ s) :
    digestFromStr s = .error .parseDigest := by
  unfold digestFromStr
  rw [findChar_eq_none '=' s (fun x hx hc => h (hc ▸ hx))]

theorem shaSizeFromStr_display (v : ShaSize) :
    shaSizeFromStr (shaSizeDisplay v) = .ok v := by
  cases v <;> rfl

theorem shaSizeDisplay_no_eq_char (v : ShaSize) : '=' ∉ shaSizeDisplay v := by
  cases v <;> decide

theorem shaSizeFromStr_not_name (s : List Char)
    (h1 : s ≠ shaSizeDisplay .twoFiftySix)
    (h2 : s ≠ shaSizeDisplay .threeEightyFour)
    (h3 : s ≠ shaSizeDisplay .fiveTwelve) :
    shaSizeFromStr s = .error .parseShaSize := by
  simp only [shaSizeDisplay] at h1 h2 h3
  simp [shaSizeFromStr, h1, h2, h3]

theorem digestFromStr_display_append (v : ShaSize) (post : List Char) :
    digestFromStr (shaSizeDisplay v ++ '=' :: post) = .ok ⟨post, v⟩ := by
  rw [digestFromStr_split _ _ (shaSizeDisplay_no_eq_char v),
    shaSizeFromStr_display]

theorem digestFromStr_asString (d : Digest) :
    digestFromStr d.asString = .ok d := by
  simpa [Digest.asString] using
    digestFromStr_display_append d.size d.digest

/-! The claims. -/

/-- Claim C1: round-trip of the textual form.  For every constructible
Digest — built by Digest::new from any byte sequence and variant, or by
from_base64_and_size from any string — parsing the string produced by
as_string yields an equal Digest. -/
theorem claim_C1_roundtrip (hash : ShaSize → List Nat → List Nat)
    (b : List Nat) (v : ShaSize) (s : List Char) :
    digestFromStr (Digest.new hash b v).asString = .ok (Digest.new hash b v) ∧
    digestFromStr (Digest.fromBase64AndSize s v).asString =
      .ok (Digest.fromBase64AndSize s v) :=
  ⟨digestFromStr_asString _, digestFromStr_asString _⟩

/-- Claim C2: the first `=` is the delimiter; everything after it (which may
contain further `=` characters) is stored verbatim as the encoded value with
no base64 decoding; a string with no `=` at all fails with
Error::ParseDigest. -/
theorem claim_C2_delimiter (l r s : List Char) (v : ShaSize) :
    ('=' ∉ l → shaSizeFromStr l = .ok v →
      digestFromStr (l ++ '=' :: r) = .ok ⟨r, v⟩) ∧
    ('=' ∉ s → digestFromStr s = .error .parseDigest) := by
  refine ⟨fun hl hv => ?_, digestFromStr_no_delim s⟩
  rw [digestFromStr_split l r hl, hv]

/-- Witness for C2 at concrete inputs: the encoded part keeps its own `=`
characters, and a delimiter-free string is rejected. -/
theorem claim_C2_delimiter_witness :
    digestFromStr (['S', 'H', 'A', '-', '2', '5', '6'] ++ '=' :: ['a', '=', '=']) =
      .ok ⟨['a', '=', '='], .twoFiftySix⟩ ∧
    digestFromStr ['a', 'b', 'c'] = .error .parseDigest :=
  ⟨(claim_C2_delimiter ['S', 'H', 'A', '-', '2', '5', '6'] ['a', '=', '=']
      ['a', 'b', 'c'] .twoFiftySix).1 (by decide) (by decide),
   (claim_C2_delimiter ['S', 'H', 'A', '-', '2', '5', '6'] ['a', '=', '=']
      ['a', 'b', 'c'] .twoFiftySix).2 (by decide)⟩

/-- Claim C3: verify(compute(b, v), b) is Ok for every body and variant, and
verify is deterministic — two calls with the same digest and body agree. -/
theorem claim_C3_verify_ok (hash : ShaSize → List Nat → List Nat)
    (b b2 : List Nat) (v : ShaSize) (d : Digest) :
    (Digest.new hash b v).verify hash b = .ok () ∧
    d.verify hash b2 = d.verify hash b2 := by
  refine ⟨?_, rfl⟩
  simp [Digest.verify, Digest.new, Digest.fromBase64AndSize]

/-- Counterexample to C4 as stated: parsing "SHA-420=abc" (an `=` present,
variant name not canonical) yields Error::ParseShaSize, not
Error::ParseDigest (MalformedDigest). -/
theorem claim_C4_counterexample :
    digestFromStr ("SHA-420=abc".toList) ≠ .error .parseDigest ∧
    digestFromStr ("SHA-420=abc".toList) = .error .parseShaSize := by
  decide

/-- Claim C4 as amended: an input containing `=` whose part before the first
`=` is none of the three canonical names fails with Error::ParseShaSize
(UnknownVariant), not MalformedDigest. -/
theorem claim_C4_unknown_variant (l r : List Char)
    (hne : '=' ∉ l)
    (h1 : l ≠ shaSizeDisplay .twoFiftySix)
    (h2 : l ≠ shaSizeDisplay .threeEightyFour)
    (h3 : l ≠ shaSizeDisplay .fiveTwelve) :
    digestFromStr (l ++ '=' :: r) = .error .parseShaSize := by
  rw [digestFromStr_split l r hne, shaSizeFromStr_not_name l h1 h2 h3]

/-- Witness for the amended C4 at a concrete input. -/
theorem claim_C4_unknown_variant_witness :
    digestFromStr (['S', 'H', 'A', '-', '4', '2', '0'] ++ '=' :: ['a', 'b', 'c']) =
      .error .parseShaSize :=
  claim_C4_unknown_variant ['S', 'H', 'A', '-', '4', '2', '0'] ['a', 'b', 'c']
    (by decide) (by decide) (by decide) (by decide)

/-- Claim C5: parsing "not a valid digest" fails with Error::ParseDigest
(MalformedDigest), and parsing "SHA-420=abc" fails with Error::ParseShaSize
(UnknownVariant). -/
theorem claim_C5_garbage_rejected :
    digestFromStr ("not a valid digest".toList) = .error .parseDigest ∧
    digestFromStr ("SHA-420=abc".toList) = .error .parseShaSize := by
  decide

/-- Claim C6: the name/parse mapping on ShaSize is total and exact — each
canonical name parses back to its variant, and every other string fails with
Error::ParseShaSize. -/
theorem claim_C6_variant_names :
    (∀ v : ShaSize, shaSizeFromStr (shaSizeDisplay v) = .ok v) ∧
    (∀ s : List Char, s ≠ shaSizeDisplay .twoFiftySix →
      s ≠ shaSizeDisplay .threeEightyFour →
      s ≠ shaSizeDisplay .fiveTwelve →
      shaSizeFromStr s = .error .parseShaSize) :=
  ⟨shaSizeFromStr_display, shaSizeFromStr_not_name⟩

/-- Witness for C6 at a concrete non-canonical input. -/
theorem claim_C6_variant_names_witness :
    shaSizeFromStr ['S', 'H', 'A'] = .error .parseShaSize :=
  claim_C6_variant_names.2 ['S', 'H', 'A'] (by decide) (by decide) (by decide)

/-- Claim C8: variant sensitivity of the textual form — for any body, the
SHA-256 and SHA-384 digest strings differ (their variant-name parts do). -/
theorem claim_C8_variant_sensitivity (hash : ShaSize → List Nat → List Nat)
    (b : List Nat) :
    (Digest.new hash b .twoFiftySix).asString ≠
      (Digest.new hash b .threeEightyFour).asString := by
  intro h
  simp [Digest.asString, Digest.new, Digest.fromBase64AndSize,
    shaSizeDisplay] at h

/-- Claim C9: a string whose first `=` is its last character parses to a
Digest with empty encoded part, and in general any string after the first
`=` is accepted and stored with no validity constraint. -/
theorem claim_C9_empty_encoded :
    digestFromStr ("SHA-256=".toList) =
      .ok (Digest.fromBase64AndSize [] .twoFiftySix) ∧
    (∀ (v : ShaSize) (post : List Char),
      digestFromStr (shaSizeDisplay v ++ '=' :: post) =
        .ok (Digest.fromBase64AndSize post v)) :=
  ⟨by decide, fun v post => digestFromStr_display_append v post⟩

/-- Claim C7: guard ordering.  When the Digest header parses and the declared
Content-Length exceeds the 2 MiB ceiling, the data guard fails with
BadRequest (the TooLarge rejection) having read zero bytes from the body
stream. -/
theorem claim_C7_guard_ordering (hash : ShaSize → List Nat → List Nat)
    (dh lh : Option (List Char)) (stream : List Nat) (d : Digest) (n : Nat)
    (hd : digestHeaderGuard dh = some d)
    (hn : contentLengthGuard lh = some n)
    (hbig : 1024 * 1024 * 2 < n) :
    fromData hash dh lh stream = (.failure .badRequest, 0) := by
  unfold fromData
  rw [hd, hn]
  simp [gt_iff_lt, hbig]

/-- Witness for C7: a request declaring 3,000,000 bytes is rejected with no
bytes read, even though the stream has a byte available. -/
theorem claim_C7_guard_ordering_witness :
    fromData (fun _ _ => []) (some ("SHA-256=abc".toList))
      (some ("3000000".toList)) [7] = (.failure .badRequest, 0) :=
  claim_C7_guard_ordering (fun _ _ => []) (some ("SHA-256=abc".toList))
    (some ("3000000".toList)) [7] ⟨"abc".toList, .twoFiftySix⟩ 3000000
    (by decide) (by decide) (by decide)

/-- Claim C10: the bound check is strict, so a declared length less than or
equal to the 2 MiB ceiling (including exactly 2,097,152) is not rejected as
too large and the guard proceeds to read the body: the number of bytes read
is the minimum of the declared length and the stream length. -/
theorem claim_C10_ceiling_inclusive (hash : ShaSize → List Nat → List Nat)
    (dh lh : Option (List Char)) (stream : List Nat) (d : Digest) (n : Nat)
    (hd : digestHeaderGuard dh = some d)
    (hn : contentLengthGuard lh = some n)
    (hle : n ≤ 1024 * 1024 * 2) :
    (fromData hash dh lh stream).2 = min n stream.length := by
  unfold fromData
  rw [hd, hn]
  have hnotbig : ¬ (1024 * 1024 * 2 < n) := Nat.not_lt.mpr hle
  simp only [gt_iff_lt, if_neg hnotbig]
  by_cases hs : stream.length < n
  · rw [if_pos hs]
    show stream.length = min n stream.length
    omega
  · rw [if_neg hs]
    show (if d ≠ Digest.new hash (stream.take n) d.size
        then ((GuardOutcome.failure Status.badRequest, n) : GuardOutcome × Nat)
        else (GuardOutcome.success (stream.take n), n)).2 = min n stream.length
    by_cases hd2 : d = Digest.new hash (stream.take n) d.size
    · rw [if_neg (fun hc => hc hd2)]
      show n = min n stream.length
      omega
    · rw [if_pos hd2]
      show n = min n stream.length
      omega

/-- Witness for C10: declaring exactly the ceiling (2,097,152 bytes) passes
the bound check, and the guard goes on to read the one available byte. -/
theorem claim_C10_ceiling_inclusive_witness :
    (fromData (fun _ _ => []) (some ("SHA-256=abc".toList))
      (some ("2097152".toList)) [7]).2 = min 2097152 ([7] : List Nat).length :=
  claim_C10_ceiling_inclusive (fun _ _ => []) (some ("SHA-256=abc".toList))
    (some ("2097152".toList)) [7] ⟨"abc".toList, .twoFiftySix⟩ 2097152
    (by decide) (by decide) (by decide)

end DigestHeaders
